import Mathlib

/-!
Shallow embedding of the kinrou_plus credential vault.

The program is a browser extension with two storage areas:
durable storage (chrome.storage.local) holding the plaintext identifier
pair and the encrypted password blob, and session-scoped storage
(chrome.storage.session) holding the raw bytes of the AES-GCM key.
The popup-side `CredentialManager` exposes save / get / getSavedCodes /
exists / clear; the background service worker has its own read path
(getCredentials / getSavedCodes) guarded by a sender-validation gate.

Modelling decisions:
- Stores are explicit records; every storage-touching operation is a
  function from store state, returning the result together with the
  written state where the source writes.
- Randomness (crypto.subtle.generateKey, crypto.getRandomValues) enters
  as explicit parameters.
- AES-GCM is modelled symbolically as a perfectly authenticated scheme:
  a ciphertext records the key bytes and IV it was produced under and
  the plaintext it protects, and decryption succeeds exactly under the
  matching key and IV (otherwise the source call throws, which callers
  catch and convert to an absent result).
- JavaScript truthiness matters at the guards: for the string fields a
  missing value and the empty string are both falsy; the stored
  ciphertext, IV and key-byte arrays are only falsy when missing.
-/

/-- Raw exportable key bytes, as stored in the session store. -/
abbrev KeyBytes := List Nat

/-- A 12-byte initialization vector, modelled as a byte list. -/
abbrev Nonce := List Nat

/-- Symbolic AES-GCM blob: records the key bytes and IV used at
encryption and the protected plaintext.  Authentication is modelled as
perfect: decryption recovers `plain` exactly under the same key and IV. -/
structure Ciphertext where
  keyBytes : KeyBytes
  iv : Nonce
  plain : String
deriving Repr, DecidableEq

/-- The four fields the program keeps in chrome.storage.local, under the
keys kinrou_company_code, kinrou_employee_code, kinrou_encrypted_password
and kinrou_password_iv.  `none` models an unset key. -/
structure LocalStore where
  companyCode : Option String
  employeeCode : Option String
  encryptedPassword : Option Ciphertext
  iv : Option Nonce
deriving Repr, DecidableEq

/-- The single field the program keeps in chrome.storage.session, under
the key kinrou_crypto_key: the raw exported bytes of the AES-GCM key. -/
structure SessionStore where
  cryptoKey : Option KeyBytes
deriving Repr, DecidableEq

/-- Combined storage state of the extension. -/
structure State where
  localStore : LocalStore
  sessionStore : SessionStore
deriving Repr, DecidableEq

/-- The record returned by a successful credential read. -/
structure Credential where
  companyCode : String
  employeeCode : String
  password : String
deriving Repr, DecidableEq

/-- JavaScript truthiness of an optional string field: an unset key and
the empty string are both falsy. -/
def truthyStr : Option String → Bool
  | none => false
  | some s => s != ""

/-- crypto.subtle.importKey on raw bytes: yields a handle for exactly
those bytes (keys are identified with their raw bytes in this model). -/
def importKey (b : KeyBytes) : KeyBytes := b

/-- CredentialManager.encryptPassword: encodes the password and encrypts
it under `key` with a freshly generated 12-byte IV (the randomness is the
explicit argument `iv`); returns the ciphertext together with the IV. -/
def encryptPassword (password : String) (key : KeyBytes) (iv : Nonce) :
    Ciphertext × Nonce :=
  (⟨key, iv, password⟩, iv)

/-- decryptPassword: AES-GCM decryption of `c` under `key` and `iv`.
Returns the plaintext when the key and IV match the ones used at
encryption; otherwise the source call throws, modelled as `none`. -/
def decryptPassword (c : Ciphertext) (iv : Nonce) (key : KeyBytes) :
    Option String :=
  if c.keyBytes = key ∧ c.iv = iv then some c.plain else none

namespace CredentialManager

/-- isValidCompanyCode: the regex test for digit strings of 1 to 5
digits, stated over the string's character list. -/
def isValidCompanyCode (companyCode : String) : Bool :=
  1 ≤ companyCode.data.length && companyCode.data.length ≤ 5 &&
    companyCode.data.all Char.isDigit

/-- isValidEmployeeCode: the regex test for digit strings of 1 to 10
digits, stated over the string's character list. -/
def isValidEmployeeCode (employeeCode : String) : Bool :=
  1 ≤ employeeCode.data.length && employeeCode.data.length ≤ 10 &&
    employeeCode.data.all Char.isDigit

/-- getOrCreateCryptoKey: reads the session store; if key bytes are
present, imports and returns them without writing; otherwise generates a
fresh key (the explicit argument `fresh`), stores its raw bytes in the
session store, and returns it. -/
def getOrCreateCryptoKey (s : SessionStore) (fresh : KeyBytes) :
    KeyBytes × SessionStore :=
  match s.cryptoKey with
  | some stored => (importKey stored, s)
  | none => (fresh, { cryptoKey := some fresh })

/-- getCryptoKey: read-only accessor; returns `none` when no key bytes
are stored, else the imported key.  The source performs no storage writes,
so the session store is returned unchanged. -/
def getCryptoKey (s : SessionStore) : Option KeyBytes × SessionStore :=
  match s.cryptoKey with
  | none => (none, s)
  | some stored => (some (importKey stored), s)

/-- CredentialManager.save: validates the two codes and the password,
obtains (or mints, using `fresh`) the session key, encrypts the password
under it with the fresh IV `ivFresh`, and writes the four fields to the
durable store in one set call.  Returns success together with the
post-state. -/
def save (companyCode employeeCode password : String) (st : State)
    (fresh : KeyBytes) (ivFresh : Nonce) : Bool × State :=
  if !isValidCompanyCode companyCode then (false, st)
  else if !isValidEmployeeCode employeeCode then (false, st)
  else if password = "" then (false, st)
  else
    let p := getOrCreateCryptoKey st.sessionStore fresh
    let e := encryptPassword password p.1 ivFresh
    (true,
      { localStore :=
          { companyCode := some companyCode
            employeeCode := some employeeCode
            encryptedPassword := some e.1
            iv := some e.2 }
        sessionStore := p.2 })

/-- CredentialManager.get, instrumented: the second component records
whether the durable store was read.  The source returns null immediately
when getCryptoKey yields no key; otherwise it reads the four durable
fields, returns null when any of them is falsy, decrypts (a throw is
caught and converted to null), and returns the reconstructed record. -/
def getWithLocalRead (st : State) : Option Credential × Bool :=
  match (getCryptoKey st.sessionStore).1 with
  | none => (none, false)
  | some key =>
    match st.localStore.companyCode, st.localStore.employeeCode,
        st.localStore.encryptedPassword, st.localStore.iv with
    | some cc, some ec, some ct, some iv =>
      if cc = "" ∨ ec = "" then (none, true)
      else
        match decryptPassword ct iv key with
        | none => (none, true)
        | some pw => (some ⟨cc, ec, pw⟩, true)
    | _, _, _, _ => (none, true)

/-- CredentialManager.get: the credential record, or `none` when the key
is absent, a durable field is falsy, or decryption fails. -/
def get (st : State) : Option Credential := (getWithLocalRead st).1

/-- CredentialManager.getSavedCodes: reads only the plaintext identifier
pair from the durable store; returns `none` when either is falsy. -/
def getSavedCodes (st : State) : Option (String × String) :=
  match st.localStore.companyCode, st.localStore.employeeCode with
  | some cc, some ec => if cc = "" ∨ ec = "" then none else some (cc, ec)
  | _, _ => none

/-- CredentialManager.exists (named existsCredential here because
`exists` is a Lean keyword): true iff `get` returns a record. -/
def existsCredential (st : State) : Bool := (get st).isSome

/-- CredentialManager.clear: removes the four durable fields and the
session key; returns success together with the post-state. -/
def clear (st : State) : Bool × State :=
  (true, { localStore := ⟨none, none, none, none⟩, sessionStore := ⟨none⟩ })

end CredentialManager

namespace ServiceWorker

/-- The service worker's getCryptoKey (a second copy of the read-only
accessor, written in the background script). -/
def getCryptoKey (s : SessionStore) : Option KeyBytes × SessionStore :=
  match s.cryptoKey with
  | none => (none, s)
  | some stored => (some (importKey stored), s)

/-- The service worker's getCredentials: same shape as the popup-side
get — key first, then the four durable fields, then decryption, with any
throw caught and converted to null. -/
def getCredentials (st : State) : Option Credential :=
  match (getCryptoKey st.sessionStore).1 with
  | none => none
  | some key =>
    match st.localStore.companyCode, st.localStore.employeeCode,
        st.localStore.encryptedPassword, st.localStore.iv with
    | some cc, some ec, some ct, some iv =>
      if cc = "" ∨ ec = "" then none
      else
        match decryptPassword ct iv key with
        | none => none
        | some pw => some ⟨cc, ec, pw⟩
    | _, _, _, _ => none

/-- The service worker's getSavedCodes: the plaintext identifier pair,
or null when either field is falsy. -/
def getSavedCodes (st : State) : Option (String × String) :=
  match st.localStore.companyCode, st.localStore.employeeCode with
  | some cc, some ec => if cc = "" ∨ ec = "" then none else some (cc, ec)
  | _, _ => none

end ServiceWorker

/-- The fields of chrome.runtime.MessageSender the handler inspects.
`id` is the sender's extension id (absent for web-page senders); `url`
is the URL of the page or frame that opened the connection, when known. -/
structure MessageSender where
  id : Option String
  url : Option String
deriving Repr, DecidableEq

/-- The hardcoded trusted page-URL beginning accepted by the gate. -/
def trustedUrlStart : String := "https://kinrouap1.hr44.jp/"

/-- The message types the listener dispatches on. -/
inductive MessageType where
  | GET_CREDENTIALS
  | GET_SAVED_CODES
  | other : String → MessageType
deriving Repr, DecidableEq

/-- A non-null response payload. -/
inductive Response where
  | credentials : Credential → Response
  | savedCodes : String × String → Response
deriving Repr, DecidableEq

/-- What the listener does with sendResponse: calls it (possibly with
null, modelled as `responded none`), or never calls it. -/
inductive HandlerOutcome where
  | responded : Option Response → HandlerOutcome
  | noResponse : HandlerOutcome
deriving Repr, DecidableEq

namespace ServiceWorker

/-- isValidSender: senders carrying the extension's own id are checked
against the trusted URL when they report a truthy url (content scripts);
extension senders with no truthy url (the popup and other extension
pages) are allowed; all other senders are rejected. -/
def isValidSender (extensionId : String) (sender : MessageSender) : Bool :=
  if sender.id = some extensionId then
    match sender.url with
    | some u =>
      if u = "" then true else trustedUrlStart.data.isPrefixOf u.data
    | none => true
  else false

/-- The chrome.runtime.onMessage listener: rejects invalid senders with
a null response before any storage read; otherwise serves
GET_CREDENTIALS and GET_SAVED_CODES from the vault, and ignores other
message types.  The second component records whether a vault read
(getCredentials or getSavedCodes) executed. -/
def handleMessage (extensionId : String) (st : State)
    (sender : MessageSender) (msg : MessageType) : HandlerOutcome × Bool :=
  if !isValidSender extensionId sender then
    (.responded none, false)
  else
    match msg with
    | .GET_CREDENTIALS =>
        (.responded ((getCredentials st).map .credentials), true)
    | .GET_SAVED_CODES =>
        (.responded ((getSavedCodes st).map .savedCodes), true)
    | .other _ => (.noResponse, false)

end ServiceWorker

/-- The durable fields are all truthy exactly when the get guard
`if (!companyCode || !employeeCode || !encryptedPassword || !iv)` does
not fire: both string fields truthy and both array fields present. -/
def localFieldsPresent (l : LocalStore) : Bool :=
  truthyStr l.companyCode && truthyStr l.employeeCode &&
    l.encryptedPassword.isSome && l.iv.isSome

set_option maxRecDepth 10000

/-- A string passing the company-code regex is non-empty. -/
theorem ne_empty_of_isValidCompanyCode {cc : String}
    (h : CredentialManager.isValidCompanyCode cc = true) : cc ≠ "" := by
  intro hcc
  subst hcc
  simp [CredentialManager.isValidCompanyCode] at h

/-- A string passing the employee-code regex is non-empty. -/
theorem ne_empty_of_isValidEmployeeCode {ec : String}
    (h : CredentialManager.isValidEmployeeCode ec = true) : ec ≠ "" := by
  intro hec
  subst hec
  simp [CredentialManager.isValidEmployeeCode] at h

/-- After getOrCreateCryptoKey, the session store holds exactly the
returned key's bytes. -/
theorem getOrCreateCryptoKey_session (s : SessionStore) (fresh : KeyBytes) :
    ((CredentialManager.getOrCreateCryptoKey s fresh).2).cryptoKey =
      some (CredentialManager.getOrCreateCryptoKey s fresh).1 := by
  obtain ⟨ck⟩ := s
  cases ck <;> rfl

/-- C1: for every companyCode matching the 1-to-5-digit regex, every
employeeCode matching the 1-to-10-digit regex, and every non-empty
password, save returns success, and while the minted key is still
resident in the session store a subsequent get returns a record whose
fields equal the saved inputs. -/
theorem save_get_roundtrip (cc ec pw : String) (st : State)
    (fresh : KeyBytes) (ivFresh : Nonce)
    (hcc : CredentialManager.isValidCompanyCode cc = true)
    (hec : CredentialManager.isValidEmployeeCode ec = true)
    (hpw : pw ≠ "") :
    (CredentialManager.save cc ec pw st fresh ivFresh).1 = true ∧
    CredentialManager.get (CredentialManager.save cc ec pw st fresh ivFresh).2 =
      some ⟨cc, ec, pw⟩ := by
  have hcc' := ne_empty_of_isValidCompanyCode hcc
  have hec' := ne_empty_of_isValidEmployeeCode hec
  obtain ⟨l, ⟨ck⟩⟩ := st
  cases ck <;>
    simp [CredentialManager.save, CredentialManager.getOrCreateCryptoKey,
      CredentialManager.get, CredentialManager.getWithLocalRead,
      CredentialManager.getCryptoKey, encryptPassword, decryptPassword,
      importKey, hcc, hec, hpw, hcc', hec']

/-- C1 witness: a concrete valid save followed by get. -/
theorem save_get_roundtrip_witness :
    (CredentialManager.save "123" "4567" "pw"
      ⟨⟨none, none, none, none⟩, ⟨none⟩⟩ [0] [1]).1 = true ∧
    CredentialManager.get (CredentialManager.save "123" "4567" "pw"
      ⟨⟨none, none, none, none⟩, ⟨none⟩⟩ [0] [1]).2 =
      some ⟨"123", "4567", "pw"⟩ :=
  save_get_roundtrip "123" "4567" "pw" ⟨⟨none, none, none, none⟩, ⟨none⟩⟩
    [0] [1] (by decide) (by decide) (by decide)

/-- C3: for every companyCode failing its regex, employeeCode failing
its regex, or empty password, save returns failure and returns the two
stores exactly as they were. -/
theorem save_invalid_no_effect (cc ec pw : String) (st : State)
    (fresh : KeyBytes) (ivFresh : Nonce)
    (h : CredentialManager.isValidCompanyCode cc = false ∨
         CredentialManager.isValidEmployeeCode ec = false ∨ pw = "") :
    CredentialManager.save cc ec pw st fresh ivFresh = (false, st) := by
  rcases h with h | h | h
  · simp [CredentialManager.save, h]
  · cases hcc : CredentialManager.isValidCompanyCode cc <;>
      simp [CredentialManager.save, hcc, h]
  · cases hcc : CredentialManager.isValidCompanyCode cc <;>
      cases hec : CredentialManager.isValidEmployeeCode ec <;>
        simp [CredentialManager.save, hcc, hec, h]

/-- C3 witness: a six-digit company code is rejected without touching a
populated store. -/
theorem save_invalid_no_effect_witness :
    CredentialManager.save "123456" "1" "pw"
      ⟨⟨some "9", some "8", none, none⟩, ⟨some [3]⟩⟩ [0] [1] =
      (false, ⟨⟨some "9", some "8", none, none⟩, ⟨some [3]⟩⟩) :=
  save_invalid_no_effect "123456" "1" "pw"
    ⟨⟨some "9", some "8", none, none⟩, ⟨some [3]⟩⟩ [0] [1]
    (Or.inl (by decide))

/-- C8: when the session store already holds key bytes,
getOrCreateCryptoKey returns the key imported from exactly those bytes
and leaves the store unchanged; a fresh key is generated and stored only
when none exists; repeated calls within one session return the same key
and the same store. -/
theorem getOrCreateCryptoKey_idempotent (s : SessionStore) (fresh : KeyBytes) :
    (∀ k, s.cryptoKey = some k →
      CredentialManager.getOrCreateCryptoKey s fresh = (importKey k, s)) ∧
    (s.cryptoKey = none →
      CredentialManager.getOrCreateCryptoKey s fresh =
        (fresh, ⟨some fresh⟩)) ∧
    (∀ fresh₂, CredentialManager.getOrCreateCryptoKey
        (CredentialManager.getOrCreateCryptoKey s fresh).2 fresh₂ =
      ((CredentialManager.getOrCreateCryptoKey s fresh).1,
        (CredentialManager.getOrCreateCryptoKey s fresh).2)) := by
  obtain ⟨ck⟩ := s
  cases ck <;> simp [CredentialManager.getOrCreateCryptoKey, importKey]

/-- C8 witness: with bytes already stored, the same bytes come back and
the store is untouched. -/
theorem getOrCreateCryptoKey_idempotent_witness :
    CredentialManager.getOrCreateCryptoKey ⟨some [7, 7]⟩ [1] =
      (importKey [7, 7], ⟨some [7, 7]⟩) :=
  (getOrCreateCryptoKey_idempotent ⟨some [7, 7]⟩ [1]).1 [7, 7] rfl

/-- C9: the read-only key accessor returns the session store unchanged
in every case, returns none exactly when no key bytes are stored, returns
the key imported from the stored bytes otherwise, and the service
worker's copy of the accessor agrees with it.  (It takes no handle to
the durable store at all, so it cannot write there.) -/
theorem getCryptoKey_readonly (s : SessionStore) :
    (CredentialManager.getCryptoKey s).2 = s ∧
    ((CredentialManager.getCryptoKey s).1 = none ↔ s.cryptoKey = none) ∧
    (∀ k, s.cryptoKey = some k →
      (CredentialManager.getCryptoKey s).1 = some (importKey k)) ∧
    ServiceWorker.getCryptoKey s = CredentialManager.getCryptoKey s := by
  obtain ⟨ck⟩ := s
  cases ck <;>
    simp [CredentialManager.getCryptoKey, ServiceWorker.getCryptoKey,
      importKey]

/-- C9 witness: stored bytes are returned as the imported key. -/
theorem getCryptoKey_readonly_witness :
    (CredentialManager.getCryptoKey ⟨some [5]⟩).1 = some (importKey [5]) :=
  (getCryptoKey_readonly ⟨some [5]⟩).2.2.1 [5] rfl

/-- C2: get returns the absent result exactly when the session key is
absent, or one of the four persisted fields is falsy (for the two string
fields the source's guard treats the empty string like a missing value),
or decryption fails under the resident key; and in the key-absent case
it answers without reading the durable store. -/
theorem get_none_characterization (st : State) :
    (CredentialManager.get st = none ↔
      st.sessionStore.cryptoKey = none ∨
      localFieldsPresent st.localStore = false ∨
      (∃ k ct iv, st.sessionStore.cryptoKey = some k ∧
        st.localStore.encryptedPassword = some ct ∧
        st.localStore.iv = some iv ∧
        decryptPassword ct iv (importKey k) = none)) ∧
    (st.sessionStore.cryptoKey = none →
      CredentialManager.getWithLocalRead st = (none, false)) := by
  obtain ⟨⟨occ, oec, oep, oiv⟩, ⟨ock⟩⟩ := st
  cases ock with
  | none =>
    simp [CredentialManager.get, CredentialManager.getWithLocalRead,
      CredentialManager.getCryptoKey]
  | some k =>
    cases occ with
    | none =>
      simp [CredentialManager.get, CredentialManager.getWithLocalRead,
        CredentialManager.getCryptoKey, localFieldsPresent, truthyStr]
    | some c =>
      cases oec with
      | none =>
        simp [CredentialManager.get, CredentialManager.getWithLocalRead,
          CredentialManager.getCryptoKey, localFieldsPresent, truthyStr]
      | some e =>
        cases oep with
        | none =>
          simp [CredentialManager.get, CredentialManager.getWithLocalRead,
            CredentialManager.getCryptoKey, localFieldsPresent, truthyStr]
        | some ct =>
          cases oiv with
          | none =>
            simp [CredentialManager.get, CredentialManager.getWithLocalRead,
              CredentialManager.getCryptoKey, localFieldsPresent, truthyStr]
          | some iv =>
            by_cases hce : c = "" ∨ e = ""
            · simp [CredentialManager.get, CredentialManager.getWithLocalRead,
                CredentialManager.getCryptoKey, localFieldsPresent,
                truthyStr, hce]
              rcases hce with hce | hce <;> simp [hce]
            · cases hd : decryptPassword ct iv (importKey k) <;>
                simp [CredentialManager.get,
                  CredentialManager.getWithLocalRead,
                  CredentialManager.getCryptoKey, localFieldsPresent,
                  truthyStr, hce, hd, importKey, not_or] at hd ⊢ <;>
                simp [not_or] at hce <;>
                simp [hce.1, hce.2, hd]

/-- C2 witness: with no session key, get answers absent without reading
the durable store, even though all four durable fields are populated. -/
theorem get_none_characterization_witness :
    CredentialManager.getWithLocalRead
      ⟨⟨some "1", some "2", some ⟨[9], [1], "pw"⟩, some [1]⟩, ⟨none⟩⟩ =
      (none, false) :=
  (get_none_characterization
    ⟨⟨some "1", some "2", some ⟨[9], [1], "pw"⟩, some [1]⟩, ⟨none⟩⟩).2 rfl

/-- C4: a sender that does not carry the extension's own id, or that
carries a truthy page URL not beginning with the trusted URL (the
source's startsWith test, modelled as a character-list prefix test),
receives a null response to both GET_CREDENTIALS and GET_SAVED_CODES
with no vault read executed — uniformly in the storage state, so the
response cannot leak whether credentials exist. -/
theorem gate_denies_untrusted (extensionId : String) (st : State)
    (sender : MessageSender)
    (h : sender.id ≠ some extensionId ∨
      ∃ u, sender.url = some u ∧ u ≠ "" ∧
        trustedUrlStart.data.isPrefixOf u.data = false) :
    ServiceWorker.handleMessage extensionId st sender .GET_CREDENTIALS =
      (.responded none, false) ∧
    ServiceWorker.handleMessage extensionId st sender .GET_SAVED_CODES =
      (.responded none, false) := by
  have hv : ServiceWorker.isValidSender extensionId sender = false := by
    unfold ServiceWorker.isValidSender
    rcases h with h | ⟨u, hu, hne, hs⟩
    · simp [h]
    · by_cases hid : sender.id = some extensionId
      · simp [hid, hu, hne, hs]
      · simp [hid]
  simp [ServiceWorker.handleMessage, hv]

/-- C4 witness: an extension-id sender reporting an untrusted page URL
is refused both request types over a fully populated store. -/
theorem gate_denies_untrusted_witness :
    ServiceWorker.handleMessage "ext-id"
      ⟨⟨some "1", some "2", some ⟨[9], [1], "pw"⟩, some [1]⟩, ⟨some [9]⟩⟩
      ⟨some "ext-id", some "https://evil.example/"⟩ .GET_CREDENTIALS =
      (.responded none, false) ∧
    ServiceWorker.handleMessage "ext-id"
      ⟨⟨some "1", some "2", some ⟨[9], [1], "pw"⟩, some [1]⟩, ⟨some [9]⟩⟩
      ⟨some "ext-id", some "https://evil.example/"⟩ .GET_SAVED_CODES =
      (.responded none, false) :=
  gate_denies_untrusted "ext-id"
    ⟨⟨some "1", some "2", some ⟨[9], [1], "pw"⟩, some [1]⟩, ⟨some [9]⟩⟩
    ⟨some "ext-id", some "https://evil.example/"⟩
    (Or.inr ⟨"https://evil.example/", rfl, by decide, by decide⟩)

/-- C5 counterexample: a sender attributed to the extension's own id
whose UI context reports its own chrome-extension URL is denied by
isValidSender, so the gate does not allow the extension's own surfaces
unconditionally regardless of reported URL. -/
theorem gate_ui_url_denied_cex :
    ServiceWorker.isValidSender "abcdefgh"
      ⟨some "abcdefgh", some "chrome-extension://abcdefgh/popup.html"⟩ =
      false := by decide

/-- C5 amended: a sender carrying the extension's own id is allowed
unconditionally only when it reports no URL, or an empty one (the code
treats URL-less extension senders as the extension's own pages); when it
reports a non-empty URL — as a UI context reporting its own URL would —
it is allowed exactly when that URL begins with the trusted URL. -/
theorem gate_own_identity_url_checked (extensionId : String)
    (sender : MessageSender) (hid : sender.id = some extensionId) :
    ((sender.url = none ∨ sender.url = some "") →
      ServiceWorker.isValidSender extensionId sender = true) ∧
    (∀ u, sender.url = some u → u ≠ "" →
      ServiceWorker.isValidSender extensionId sender =
        trustedUrlStart.data.isPrefixOf u.data) := by
  unfold ServiceWorker.isValidSender
  constructor
  · rintro (hu | hu) <;> simp [hid, hu]
  · rintro u hu hne
    simp [hid, hu, hne]

/-- C5 amended witness: an extension-id sender with no reported URL is
allowed. -/
theorem gate_own_identity_url_checked_witness :
    ServiceWorker.isValidSender "abcdefgh" ⟨some "abcdefgh", none⟩ = true :=
  (gate_own_identity_url_checked "abcdefgh" ⟨some "abcdefgh", none⟩ rfl).1
    (Or.inl rfl)

/-- C6: whenever clear reports success, none of the five persisted items
remain, and on the resulting state get is absent, existsCredential is
false, and getSavedCodes is null. -/
theorem clear_removes_all (st st' : State)
    (h : CredentialManager.clear st = (true, st')) :
    st'.localStore.companyCode = none ∧
    st'.localStore.employeeCode = none ∧
    st'.localStore.encryptedPassword = none ∧
    st'.localStore.iv = none ∧
    st'.sessionStore.cryptoKey = none ∧
    CredentialManager.get st' = none ∧
    CredentialManager.existsCredential st' = false ∧
    CredentialManager.getSavedCodes st' = none := by
  have hst : st' = ⟨⟨none, none, none, none⟩, ⟨none⟩⟩ := by
    have h2 := congrArg Prod.snd h
    simpa [CredentialManager.clear] using h2.symm
  subst hst
  exact ⟨rfl, rfl, rfl, rfl, rfl, rfl, rfl, rfl⟩

/-- C6 witness: clearing a fully populated pair of stores leaves the
empty state with absent reads. -/
theorem clear_removes_all_witness :
    CredentialManager.get ⟨⟨none, none, none, none⟩, ⟨none⟩⟩ = none ∧
    CredentialManager.existsCredential
      ⟨⟨none, none, none, none⟩, ⟨none⟩⟩ = false ∧
    CredentialManager.getSavedCodes
      ⟨⟨none, none, none, none⟩, ⟨none⟩⟩ = none :=
  have h := clear_removes_all
    ⟨⟨some "1", some "2", some ⟨[9], [1], "pw"⟩, some [1]⟩, ⟨some [9]⟩⟩
    ⟨⟨none, none, none, none⟩, ⟨none⟩⟩ rfl
  ⟨h.2.2.2.2.2.1, h.2.2.2.2.2.2.1, h.2.2.2.2.2.2.2⟩

/-- C7: after a successful save, wiping only the session key (the LOCKED
state) makes get absent while getSavedCodes still returns the saved pair;
and getSavedCodes does not depend on the session store at all. -/
theorem locked_state_behavior (cc ec pw : String) (st st' : State)
    (fresh : KeyBytes) (ivFresh : Nonce)
    (h : CredentialManager.save cc ec pw st fresh ivFresh = (true, st')) :
    CredentialManager.get ⟨st'.localStore, ⟨none⟩⟩ = none ∧
    CredentialManager.getSavedCodes ⟨st'.localStore, ⟨none⟩⟩ =
      some (cc, ec) ∧
    (∀ l : LocalStore, ∀ s₁ s₂ : SessionStore,
      CredentialManager.getSavedCodes ⟨l, s₁⟩ =
        CredentialManager.getSavedCodes ⟨l, s₂⟩) := by
  by_cases hcc : CredentialManager.isValidCompanyCode cc = true
  case neg =>
    rw [Bool.not_eq_true] at hcc
    rw [save_invalid_no_effect cc ec pw st fresh ivFresh (Or.inl hcc)] at h
    exact absurd (congrArg Prod.fst h) (by simp)
  case pos =>
  by_cases hec : CredentialManager.isValidEmployeeCode ec = true
  case neg =>
    rw [Bool.not_eq_true] at hec
    rw [save_invalid_no_effect cc ec pw st fresh ivFresh
      (Or.inr (Or.inl hec))] at h
    exact absurd (congrArg Prod.fst h) (by simp)
  case pos =>
  by_cases hpw : pw = ""
  case pos =>
    rw [save_invalid_no_effect cc ec pw st fresh ivFresh
      (Or.inr (Or.inr hpw))] at h
    exact absurd (congrArg Prod.fst h) (by simp)
  case neg =>
  have hcc' := ne_empty_of_isValidCompanyCode hcc
  have hec' := ne_empty_of_isValidEmployeeCode hec
  have hst : st'.localStore.companyCode = some cc ∧
      st'.localStore.employeeCode = some ec := by
    have h2 := congrArg Prod.snd h
    simp only [CredentialManager.save, hcc, hec, hpw] at h2
    simp at h2
    rw [← h2]
    exact ⟨rfl, rfl⟩
  refine ⟨?_, ?_, ?_⟩
  · simp [CredentialManager.get, CredentialManager.getWithLocalRead,
      CredentialManager.getCryptoKey]
  · simp [CredentialManager.getSavedCodes, hst.1, hst.2, hcc', hec']
  · intro l s₁ s₂
    rfl

/-- C7 witness: a concrete save followed by session-key erasure. -/
theorem locked_state_behavior_witness :
    CredentialManager.get
      ⟨(CredentialManager.save "123" "4567" "pw"
        ⟨⟨none, none, none, none⟩, ⟨none⟩⟩ [0] [1]).2.localStore,
        ⟨none⟩⟩ = none ∧
    CredentialManager.getSavedCodes
      ⟨(CredentialManager.save "123" "4567" "pw"
        ⟨⟨none, none, none, none⟩, ⟨none⟩⟩ [0] [1]).2.localStore,
        ⟨none⟩⟩ = some ("123", "4567") :=
  have h := locked_state_behavior "123" "4567" "pw"
    ⟨⟨none, none, none, none⟩, ⟨none⟩⟩
    (CredentialManager.save "123" "4567" "pw"
      ⟨⟨none, none, none, none⟩, ⟨none⟩⟩ [0] [1]).2 [0] [1] (by decide)
  ⟨h.1, h.2.1⟩

/-- C10: the service worker's independently written read path computes
the same results as the popup-side CredentialManager over every storage
state: getCredentials agrees with get, and the two getSavedCodes agree. -/
theorem read_paths_equivalent (st : State) :
    ServiceWorker.getCredentials st = CredentialManager.get st ∧
    ServiceWorker.getSavedCodes st = CredentialManager.getSavedCodes st := by
  constructor
  · obtain ⟨⟨occ, oec, oep, oiv⟩, ⟨ock⟩⟩ := st
    cases ock with
    | none => rfl
    | some k =>
      cases occ with
      | none => rfl
      | some c =>
        cases oec with
        | none => rfl
        | some e =>
          cases oep with
          | none => rfl
          | some ct =>
            cases oiv with
            | none => rfl
            | some iv =>
              by_cases hce : c = "" ∨ e = ""
              · simp [ServiceWorker.getCredentials, CredentialManager.get,
                  CredentialManager.getWithLocalRead,
                  ServiceWorker.getCryptoKey, CredentialManager.getCryptoKey,
                  hce]
              · cases hd : decryptPassword ct iv (importKey k) <;>
                  simp [ServiceWorker.getCredentials, CredentialManager.get,
                    CredentialManager.getWithLocalRead,
                    ServiceWorker.getCryptoKey,
                    CredentialManager.getCryptoKey, hce, hd]
  · rfl
